import Mathlib

/-!
Verification development for the StreamHib session lifecycle and recovery
engine.  The Python source (`app.py`, `modules/config.py`, `modules/sessions.py`,
`modules/streaming.py`, `modules/recovery.py`, `modules/scheduler.py`) is
shallowly embedded: Python dicts become association lists with Python 3.7
insertion-order semantics, the systemd supervisor, the clock, the video
directory and the JSON file on disk become explicit environment parameters,
and every fallible external call is a boolean outcome supplied by the
environment.
-/

namespace StreamHib

/-- A Python `dict` with `str` keys: an insertion-ordered association list.
`insert` updates an existing key in place (keeping its position), otherwise
appends; `erase` removes the key; lookups scan from the front. -/
abbrev Dict (α : Type) := List (String × α)

namespace Dict

def get? {α : Type} (d : Dict α) (k : String) : Option α :=
  (d.find? (fun p => decide (p.1 = k))).map Prod.snd

def contains {α : Type} (d : Dict α) (k : String) : Bool :=
  d.any (fun p => decide (p.1 = k))

def insert {α : Type} (d : Dict α) (k : String) (v : α) : Dict α :=
  if d.contains k then
    d.map (fun p => if p.1 = k then (k, v) else p)
  else
    d ++ [(k, v)]

def erase {α : Type} (d : Dict α) (k : String) : Dict α :=
  d.filter (fun p => decide (¬ p.1 = k))

end Dict

/-- Python truthiness of a `str`-or-`None` value: `None` and `''` are falsy. -/
def isTruthy : Option String → Bool
  | none => false
  | some s => decide (¬ s = "")

/-- One session record, as stored in `sessions.json`.  Every field is optional
because the Python dicts carry keys only when some code path has set them;
`Option.none` models an absent key. -/
structure SessionInfo where
  username : Option String := none
  video_file : Option String := none
  platform : Option String := none
  stream_key : Option String := none
  started_at : Option String := none
  stopped_at : Option String := none
  stop_reason : Option String := none
  status : Option String := none
  recovered_at : Option String := none
  recovery_count : Option Nat := none
  deriving DecidableEq, Repr

/-- One schedule record, as written by `schedule_streaming_api`
(`modules/scheduler.py`).  `start_time` is modelled as the integer timestamp
of the parsed datetime. -/
structure SchedRec where
  session_name : String
  platform : String
  stream_key : String
  video_file : String
  start_time : Int
  duration : Int
  status : String
  deriving DecidableEq, Repr

/-- The sessions store: the three buckets of `sessions.json`
(`modules/sessions.py::load_sessions` default shape). -/
structure SessionsData where
  active_sessions : Dict SessionInfo
  inactive_sessions : Dict SessionInfo
  scheduled_sessions : Dict SchedRec
  deriving DecidableEq, Repr

/-- The default empty snapshot: three empty buckets. -/
def emptySessions : SessionsData :=
  { active_sessions := [], inactive_sessions := [], scheduled_sessions := [] }

/-! ## The JSON file layer (`modules/config.py`) -/

/-- On-disk state of a JSON backing file as observed by `load_json_file`:
missing, present with some text content, or present but raising an I/O error
on read. -/
inductive FileState where
  | missing
  | content (s : String)
  | readError
  deriving DecidableEq, Repr

/-- Python `str.strip()`: drop leading and trailing whitespace. -/
def pyStrip (s : String) : String :=
  String.mk (((s.data.dropWhile Char.isWhitespace).reverse.dropWhile
    Char.isWhitespace).reverse)

/-- `modules/config.py::load_json_file`: if the file exists its content is
read and stripped; nonempty stripped content is JSON-parsed; a missing file,
empty content, a parse error (`json.JSONDecodeError`) or a read error
(`IOError`) all yield `default_data`.  `parse` abstracts `json.loads`
restricted to the sessions-store shape. -/
def load_json_file (parse : String → Option SessionsData)
    (default_data : SessionsData) (f : FileState) : SessionsData :=
  match f with
  | .missing => default_data
  | .readError => default_data
  | .content s =>
    let c := pyStrip s
    if c = "" then default_data
    else
      match parse c with
      | some d => d
      | none => default_data

/-- `modules/sessions.py::load_sessions`: `load_json_file` on
`sessions.json` with the three-empty-buckets default. -/
def load_sessions (parse : String → Option SessionsData) (f : FileState) :
    SessionsData :=
  load_json_file parse emptySessions f

/-- Outcome of one `save_json_file` call: success, a failure before the file
is opened (e.g. the `open` itself raises), or an I/O error after `k`
characters of the serialization have been written. -/
inductive SaveOutcome where
  | ok
  | failOpen
  | failWrite (k : Nat)
  deriving DecidableEq, Repr

/-- `modules/config.py::save_json_file`: opens the target file with mode
`'w'` (truncating it in place) and streams `json.dump` output into it; any
exception is caught and `False` is returned.  There is no
write-to-temp-then-rename step, so an error after `k` written characters
leaves the first `k` characters of the new serialization on disk.  `serialize`
abstracts `json.dumps` with `indent=2`.  Returns (result, new disk state). -/
def save_json_file (serialize : SessionsData → String) (data : SessionsData)
    (prior : FileState) (outcome : SaveOutcome) : Bool × FileState :=
  match outcome with
  | .ok => (true, .content (serialize data))
  | .failOpen => (false, prior)
  | .failWrite k => (false, .content ((serialize data).take k))

/-! ## C5 and C10 -/

/-- C5 counterexample: the claim says a failed save leaves the prior on-disk
content unchanged.  With prior content `"OLDDATA"` and a write that fails
after 3 characters of the new serialization `"NEWDATA"`, the file afterwards
holds the truncated fragment `"NEW"`, not the prior content. -/
theorem C5_save_failure_counterexample :
    save_json_file (fun _ => "NEWDATA") emptySessions
        (.content "OLDDATA") (.failWrite 3) =
      (false, .content "NEW") ∧
    FileState.content "NEW" ≠ FileState.content "OLDDATA" := by
  constructor
  · rfl
  · decide

/-- C5 amended: `save_json_file` truncates the target in place, so only a
failure that occurs before the file is opened leaves the prior content
intact; an I/O error after `k` characters of writing leaves exactly the
first `k` characters of the new serialization (a truncated partial write),
and the call reports failure in both cases. -/
theorem C5_save_failure_amended (serialize : SessionsData → String)
    (data : SessionsData) (prior : FileState) (k : Nat) :
    save_json_file serialize data prior .failOpen = (false, prior) ∧
    save_json_file serialize data prior (.failWrite k) =
      (false, .content ((serialize data).take k)) := by
  exact ⟨rfl, rfl⟩

/-- C10: a sessions file whose stripped content does not parse as JSON, or
whose read raises, loads as the same empty three-bucket default snapshot
that a missing or empty file yields — no error is reported — and a
subsequent successful save writes the new data irrespective of what the
prior content was (so the previously stored records are overwritten). -/
theorem C10_corrupt_load_defaults (parse : String → Option SessionsData)
    (s : String) (hne : ¬ pyStrip s = "") (hbad : parse (pyStrip s) = none) :
    load_sessions parse (.content s) = emptySessions ∧
    load_sessions parse .readError = emptySessions ∧
    load_sessions parse .missing = emptySessions ∧
    load_sessions parse (.content "") = emptySessions ∧
    (∀ (serialize : SessionsData → String) (data : SessionsData)
        (prior prior' : FileState),
      save_json_file serialize data prior .ok =
        save_json_file serialize data prior' .ok) := by
  refine ⟨?_, rfl, rfl, rfl, fun _ _ _ _ => rfl⟩
  simp [load_sessions, load_json_file, hne, hbad]

/-- C10 witness: concrete corrupt content `"{oops"` with a parser that
rejects it. -/
theorem C10_corrupt_load_defaults_witness :
    load_sessions (fun _ => none) (.content "\x7boops") = emptySessions ∧
    load_sessions (fun _ => none) .readError = emptySessions := by
  have h := C10_corrupt_load_defaults (fun _ => none) "\x7boops"
    (by decide) rfl
  exact ⟨h.1, h.2.1⟩

/-! ## Session id derivation (`modules/streaming.py::sanitize_service_name`) -/

/-- A regex `\w` word character (ASCII range, as used by the session names
in this system): alphanumeric or underscore. -/
def isWordChar (c : Char) : Bool := c.isAlphanum || c = '_'

/-- `re.sub(r'-+', '-', s)`: collapse each run of hyphens to one hyphen. -/
def squeezeHyphens : List Char → List Char
  | [] => []
  | [c] => [c]
  | c :: d :: rest =>
    if c = '-' ∧ d = '-' then squeezeHyphens (d :: rest)
    else c :: squeezeHyphens (d :: rest)

/-- `modules/streaming.py::sanitize_service_name`: replace every character
outside `[\w-]` with a hyphen, collapse hyphen runs, strip leading/trailing
hyphens, cap at 50 characters. -/
def sanitize_service_name (name : String) : String :=
  let mapped := name.data.map (fun c => if isWordChar c || c = '-' then c else '-')
  let collapsed := squeezeHyphens mapped
  let stripped :=
    ((collapsed.dropWhile (fun c => c = '-')).reverse.dropWhile
      (fun c => c = '-')).reverse
  String.mk (stripped.take 50)

/-- Platform-to-RTMP-URL resolution, shared verbatim by
`create_streaming_session` and `recovery_orphaned_sessions`: `YouTube` and
`Facebook` are supported, anything else is an error. -/
def platformRtmp (p : String) : Option String :=
  if p = "YouTube" then some "rtmp://a.rtmp.youtube.com/live2"
  else if p = "Facebook" then some "rtmps://live-api-s.facebook.com:443/rtmp"
  else none

/-! ## Lifecycle operations (`modules/streaming.py`, `app.py`) -/

/-- Environment of a create call: whether `create_systemd_service` succeeds
for a given session id, whether `save_sessions` succeeds, the Flask session
username, and the current timestamp string. -/
structure CreateEnv where
  createServiceOk : String → Bool
  saveOk : Bool
  username : Option String
  now : String

/-- The active record inserted by `create_streaming_session`. -/
def newSessionRecord (env : CreateEnv)
    (platform stream_key video_file : String) : SessionInfo :=
  { username := some (env.username.getD "Unknown"),
    video_file := some video_file,
    platform := some platform,
    stream_key := some stream_key,
    started_at := some env.now,
    status := some "active" }

/-- `modules/streaming.py::create_streaming_session`: derives the id by
sanitizing the name, resolves the platform URL (unsupported platform returns
`None`), creates the systemd service (failure returns `None`), then loads the
store, inserts the active record and calls `save_sessions`, ignoring its
result, and returns the id.  The returned `SessionsData` is the on-disk
store afterwards: unchanged if no save happened or the save failed. -/
def create_streaming_session (env : CreateEnv) (disk : SessionsData)
    (platform stream_key video_file session_name : String) :
    Option String × SessionsData :=
  let session_id := sanitize_service_name session_name
  match platformRtmp platform with
  | none => (none, disk)
  | some _rtmp_url =>
    if env.createServiceOk session_id then
      let st' := { disk with
        active_sessions := disk.active_sessions.insert session_id
          (newSessionRecord env platform stream_key video_file) }
      (some session_id, if env.saveOk then st' else disk)
    else
      (none, disk)

/-- Environment of a stop call: whether `stop_systemd_service` succeeds,
whether `save_sessions` succeeds, and the current timestamp string. -/
structure StopEnv where
  stopServiceOk : Bool
  saveOk : Bool
  now : String

/-- `modules/streaming.py::stop_streaming_session`: calls
`stop_systemd_service` first but only logs its result (the transition does
not depend on `stopServiceOk`); then, if the id is in the active bucket,
stamps `stopped_at` and `status` (and nothing else — in particular no
`stop_reason`), moves the record to the inactive bucket, saves (result
ignored) and returns `True`; otherwise returns `False`. -/
def stop_streaming_session (env : StopEnv) (disk : SessionsData)
    (session_id : String) : Bool × SessionsData :=
  match disk.active_sessions.get? session_id with
  | some info =>
    let info' := { info with stopped_at := some env.now,
                             status := some "inactive" }
    let st' := { disk with
      inactive_sessions := disk.inactive_sessions.insert session_id info',
      active_sessions := disk.active_sessions.erase session_id }
    (true, if env.saveOk then st' else disk)
  | none => (false, disk)

/-- `app.py::api_stop_session` (admin stop route, authorization elided): if
the id is not in the active bucket reports not-found; otherwise calls
`stop_systemd_service` and, **only if that succeeds**, stamps `stopped_at`
and `stop_reason := "Stopped by admin"` (the `status` field is left as it
was), moves the record to inactive and saves; if the supervisor stop fails
it returns failure without touching the store. -/
def api_stop_session (env : StopEnv) (disk : SessionsData)
    (session_id : String) : Bool × SessionsData :=
  match disk.active_sessions.get? session_id with
  | none => (false, disk)
  | some info =>
    if env.stopServiceOk then
      let info' := { info with stopped_at := some env.now,
                               stop_reason := some "Stopped by admin" }
      let st' := { disk with
        inactive_sessions := disk.inactive_sessions.insert session_id info',
        active_sessions := disk.active_sessions.erase session_id }
      (true, if env.saveOk then st' else disk)
    else
      (false, disk)

/-! ## Reconciliation sweep (`modules/recovery.py::recovery_orphaned_sessions`) -/

/-- Environment of a recovery sweep: the live supervisor state
(`is_service_running` per id), video-file existence on disk, whether
`create_systemd_service` succeeds per id, whether the final `save_sessions`
succeeds, and the current timestamp string. -/
structure RecoveryEnv where
  running : String → Bool
  fileExists : String → Bool
  createServiceOk : String → Bool
  saveOk : Bool
  now : String

/-- Accumulator threaded through the sweep loop: the in-memory store being
mutated, the two counters, and the ids for which the supervisor start
(`create_systemd_service`) was invoked. -/
structure SweepAcc where
  store : SessionsData
  recovered : Nat
  moved : Nat
  startCalls : List String
  deriving DecidableEq, Repr

/-- One iteration of the sweep loop over a snapshot entry `(session_id,
session_info)` of the active bucket (`modules/recovery.py` lines 57-118):
running service → skip; falsy `video_file` → log and skip; video file
missing on disk → demote to inactive with `stop_reason := "Video file not
found during recovery"`; falsy `platform`/`stream_key` → log and skip;
unsupported platform → log and skip; otherwise call
`create_systemd_service`: on success stamp `recovered_at`, bump
`recovery_count` and keep active, on failure demote with `stop_reason :=
"Recovery failed"`. -/
def recoveryStep (env : RecoveryEnv) (acc : SweepAcc)
    (e : String × SessionInfo) : SweepAcc :=
  let session_id := e.1
  let info := e.2
  if env.running session_id then acc
  else if isTruthy info.video_file = false then acc
  else if env.fileExists (info.video_file.getD "") = false then
    let info' := { info with
      stopped_at := some env.now,
      stop_reason := some "Video file not found during recovery",
      status := some "inactive" }
    { acc with
      store := { acc.store with
        inactive_sessions := acc.store.inactive_sessions.insert session_id info',
        active_sessions := acc.store.active_sessions.erase session_id },
      moved := acc.moved + 1 }
  else if isTruthy info.platform = false || isTruthy info.stream_key = false then
    acc
  else
    match platformRtmp (info.platform.getD "") with
    | none => acc
    | some _rtmp_url =>
      if env.createServiceOk session_id then
        let info' := { info with
          recovered_at := some env.now,
          recovery_count := some (info.recovery_count.getD 0 + 1) }
        { acc with
          store := { acc.store with
            active_sessions := acc.store.active_sessions.insert session_id info' },
          recovered := acc.recovered + 1,
          startCalls := acc.startCalls ++ [session_id] }
      else
        let info' := { info with
          stopped_at := some env.now,
          stop_reason := some "Recovery failed",
          status := some "inactive" }
        { acc with
          store := { acc.store with
            inactive_sessions := acc.store.inactive_sessions.insert session_id info',
            active_sessions := acc.store.active_sessions.erase session_id },
          moved := acc.moved + 1,
          startCalls := acc.startCalls ++ [session_id] }

/-- Result of one sweep: the on-disk store afterwards, the returned counters
`{recovered, moved_to_inactive, total_active}`, and the ids for which the
supervisor start was invoked. -/
structure SweepResult where
  store : SessionsData
  recovered : Nat
  moved : Nat
  total_active : Nat
  startCalls : List String

/-- `modules/recovery.py::recovery_orphaned_sessions`: loads the store; if
the active bucket is empty returns all-zero counters without saving;
otherwise iterates the loop body over a snapshot of the active items,
saves once at the end (result ignored), and returns the counters.
`store` is the resulting on-disk content (unchanged if the save failed). -/
def recovery_orphaned_sessions (env : RecoveryEnv) (disk : SessionsData) :
    SweepResult :=
  if disk.active_sessions.isEmpty then
    { store := disk, recovered := 0, moved := 0, total_active := 0,
      startCalls := [] }
  else
    let acc := disk.active_sessions.foldl (recoveryStep env)
      { store := disk, recovered := 0, moved := 0, startCalls := [] }
    { store := if env.saveOk then acc.store else disk,
      recovered := acc.recovered,
      moved := acc.moved,
      total_active := acc.store.active_sessions.length,
      startCalls := acc.startCalls }

/-! ## Scheduler (`modules/scheduler.py`) -/

/-- An APScheduler job registered by `schedule_streaming_api`: either the
`start_scheduled_streaming` timer or the `stop_scheduled_streaming` timer. -/
inductive JobAction where
  | startStream (platform stream_key video_file session_name : String)
      (duration : Int)
  | stopStream (session_name : String)
  deriving DecidableEq, Repr

/-- A registered timer: job id, wall-clock firing timestamp, action. -/
structure Job where
  id : String
  run_date : Int
  action : JobAction
  deriving DecidableEq, Repr

/-- `modules/scheduler.py::schedule_streaming_api`: validates that all five
fields are truthy, parses `start_time` (`parse` abstracts
`datetime.fromisoformat` to an integer timestamp; `none` models
`ValueError`), rejects a start time not strictly in the future, then
registers the start timer, and, when `duration > 0`, a stop timer at
`start_time + duration` minutes, and finally writes the schedule record and
saves.  Returns ((success, message), on-disk store afterwards, timers
registered by this call). -/
def schedule_streaming_api (now : Int) (parse : String → Option Int)
    (saveOk : Bool) (disk : SessionsData)
    (platform stream_key video_file session_name start_time : Option String)
    (duration : Int) :
    (Bool × String) × SessionsData × List Job :=
  if (isTruthy platform && isTruthy stream_key && isTruthy video_file &&
      isTruthy session_name && isTruthy start_time) = false then
    ((false, "All fields are required"), disk, [])
  else
    match parse (start_time.getD "") with
    | none => ((false, "Invalid start time format"), disk, [])
    | some start_ts =>
      if start_ts ≤ now then
        ((false, "Start time must be in the future"), disk, [])
      else
        let sn := session_name.getD ""
        let job_id := "scheduled-" ++ sn ++ "-" ++ toString start_ts
        let startJob : Job :=
          { id := job_id, run_date := start_ts,
            action := .startStream (platform.getD "") (stream_key.getD "")
              (video_file.getD "") sn duration }
        let jobs :=
          if duration > 0 then
            [startJob,
             { id := "stop-" ++ job_id, run_date := start_ts + duration * 60,
               action := .stopStream sn }]
          else [startJob]
        let rec' : SchedRec :=
          { session_name := sn, platform := platform.getD "",
            stream_key := stream_key.getD "", video_file := video_file.getD "",
            start_time := start_ts, duration := duration,
            status := "scheduled" }
        let st' := { disk with
          scheduled_sessions := disk.scheduled_sessions.insert job_id rec' }
        ((true, "Streaming scheduled successfully"),
         (if saveOk then st' else disk), jobs)

/-- `modules/scheduler.py::start_scheduled_streaming`: fired at
`start_time`; just calls `create_streaming_session` and logs.  Returns the
on-disk store afterwards. -/
def start_scheduled_streaming (env : CreateEnv) (disk : SessionsData)
    (platform stream_key video_file session_name : String) : SessionsData :=
  (create_streaming_session env disk platform stream_key video_file
    session_name).2

/-- `modules/scheduler.py::stop_scheduled_streaming`: fired at
`start_time + duration`; scans the active bucket for the first record whose
`username` field equals the schedule's `session_name` and calls
`stop_streaming_session` on that id; if no record matches it only logs.
Returns the on-disk store afterwards. -/
def stop_scheduled_streaming (env : StopEnv) (disk : SessionsData)
    (session_name : String) : SessionsData :=
  match disk.active_sessions.find?
      (fun e => decide (e.2.username = some session_name)) with
  | some (sid, _) => (stop_streaming_session env disk sid).2
  | none => disk

/-! ## Concrete counterexample states -/

/-- A create environment in which the supervisor and the store save both
succeed and the logged-in account is `u1`. -/
def okCreateEnv : CreateEnv :=
  { createServiceOk := fun _ => true, saveOk := true,
    username := some "u1", now := "2026-01-01T10:00:00" }

/-- C1 counterexample: start from a store whose inactive bucket already
holds id `s` (a previously stopped session).  `create_streaming_session`
for a name sanitizing to the same id succeeds and inserts into the active
bucket without any check, leaving `s` present in **both** buckets, which
the claimed invariant forbids. -/
theorem C1_both_buckets_counterexample :
    (create_streaming_session okCreateEnv
        { active_sessions := [],
          inactive_sessions := [("s", { status := some "inactive" })],
          scheduled_sessions := [] }
        "YouTube" "key1" "a.mp4" "s").1 = some "s" ∧
    (create_streaming_session okCreateEnv
        { active_sessions := [],
          inactive_sessions := [("s", { status := some "inactive" })],
          scheduled_sessions := [] }
        "YouTube" "key1" "a.mp4" "s").2.active_sessions.contains "s" = true ∧
    (create_streaming_session okCreateEnv
        { active_sessions := [],
          inactive_sessions := [("s", { status := some "inactive" })],
          scheduled_sessions := [] }
        "YouTube" "key1" "a.mp4" "s").2.inactive_sessions.contains "s" = true := by
  decide

/-- C2 counterexample: an active session whose `video_file` field is absent
and whose unit is not running is **not** moved to the inactive bucket by the
sweep — `recovery_orphaned_sessions` logs and skips it (`if not video_file:
... continue`), leaving it in the active bucket, while the claim demands a
demotion to inactive. -/
theorem C2_absent_video_counterexample :
    (recovery_orphaned_sessions
        { running := fun _ => false, fileExists := fun _ => true,
          createServiceOk := fun _ => true, saveOk := true, now := "T" }
        { active_sessions := [("s1", { status := some "active" })],
          inactive_sessions := [], scheduled_sessions := [] }).store.active_sessions.contains "s1"
      = true ∧
    (recovery_orphaned_sessions
        { running := fun _ => false, fileExists := fun _ => true,
          createServiceOk := fun _ => true, saveOk := true, now := "T" }
        { active_sessions := [("s1", { status := some "active" })],
          inactive_sessions := [], scheduled_sessions := [] }).store.inactive_sessions.contains "s1"
      = false := by
  decide

/-- C3 counterexample: a fully valid request whose supervisor start succeeds
but whose `save_sessions` call fails: `create_streaming_session` ignores the
save result, so it returns the id as a success while the durable store still
contains no record — neither of the claim's two permitted outcomes. -/
theorem C3_save_failure_counterexample :
    (create_streaming_session
        { createServiceOk := fun _ => true, saveOk := false,
          username := some "u1", now := "T" }
        emptySessions "YouTube" "key1" "a.mp4" "sess3").1 = some "sess3" ∧
    (create_streaming_session
        { createServiceOk := fun _ => true, saveOk := false,
          username := some "u1", now := "T" }
        emptySessions "YouTube" "key1" "a.mp4" "sess3").2 = emptySessions := by
  decide

/-- C4 counterexample: `app.py::api_stop_session` on an active session whose
supervisor stop fails returns failure and leaves the record in the active
bucket — the supervisor stop failure **does** block the transition to
inactive, contradicting the claim. -/
theorem C4_blocked_stop_counterexample :
    (api_stop_session { stopServiceOk := false, saveOk := true, now := "T" }
        { active_sessions := [("s1", { status := some "active" })],
          inactive_sessions := [], scheduled_sessions := [] } "s1").1 = false ∧
    (api_stop_session { stopServiceOk := false, saveOk := true, now := "T" }
        { active_sessions := [("s1", { status := some "active" })],
          inactive_sessions := [], scheduled_sessions := [] }
        "s1").2.inactive_sessions.contains "s1" = false ∧
    (api_stop_session { stopServiceOk := false, saveOk := true, now := "T" }
        { active_sessions := [("s1", { status := some "active" })],
          inactive_sessions := [], scheduled_sessions := [] }
        "s1").2.active_sessions.contains "s1" = true := by
  decide

/-- C6 counterexample: the derived id `dup` already exists in the scheduled
bucket, yet `create_streaming_session` succeeds and writes an active record
anyway — there is no uniqueness check across buckets and the claim's
"fails and writes nothing" is violated. -/
theorem C6_duplicate_id_counterexample :
    (create_streaming_session okCreateEnv
        { active_sessions := [], inactive_sessions := [],
          scheduled_sessions := [("dup",
            { session_name := "dup", platform := "YouTube",
              stream_key := "k", video_file := "a.mp4", start_time := 100,
              duration := 0, status := "scheduled" })] }
        "YouTube" "key1" "a.mp4" "dup").1 = some "dup" ∧
    (create_streaming_session okCreateEnv
        { active_sessions := [], inactive_sessions := [],
          scheduled_sessions := [("dup",
            { session_name := "dup", platform := "YouTube",
              stream_key := "k", video_file := "a.mp4", start_time := 100,
              duration := 0, status := "scheduled" })] }
        "YouTube" "key1" "a.mp4" "dup").2.active_sessions.contains "dup" = true := by
  decide

/-- C9 counterexample: the start timer creates a session named `show1` for
account `u1` (record keyed by id `show1` with `username = "u1"`); the stop
timer then looks up active records by `username == session_name`, finds
nothing (`"u1" ≠ "show1"`), and stops nothing: the session the schedule
started is still active afterwards. -/
theorem C9_stop_lookup_counterexample :
    (stop_scheduled_streaming { stopServiceOk := true, saveOk := true, now := "T2" }
        (start_scheduled_streaming okCreateEnv emptySessions
          "YouTube" "key1" "a.mp4" "show1") "show1") =
      start_scheduled_streaming okCreateEnv emptySessions
        "YouTube" "key1" "a.mp4" "show1" ∧
    (stop_scheduled_streaming { stopServiceOk := true, saveOk := true, now := "T2" }
        (start_scheduled_streaming okCreateEnv emptySessions
          "YouTube" "key1" "a.mp4" "show1")
        "show1").active_sessions.contains "show1" = true := by
  decide

/-! ## Dictionary lemmas -/

namespace Dict

theorem contains_cons {α : Type} (e : String × α) (d : Dict α) (k : String) :
    Dict.contains (e :: d) k = (decide (e.1 = k) || Dict.contains d k) := by
  simp [Dict.contains]

theorem get?_cons_pos {α : Type} {e : String × α} (d : Dict α) {k : String}
    (h : e.1 = k) : Dict.get? (e :: d) k = some e.2 := by
  simp [Dict.get?, List.find?, h]

theorem get?_cons_neg {α : Type} {e : String × α} (d : Dict α) {k : String}
    (h : ¬ e.1 = k) : Dict.get? (e :: d) k = Dict.get? d k := by
  simp [Dict.get?, List.find?, h]

theorem erase_cons {α : Type} (e : String × α) (d : Dict α) (k : String) :
    Dict.erase (e :: d) k =
      if e.1 = k then Dict.erase d k else e :: Dict.erase d k := by
  by_cases h : e.1 = k <;> simp [Dict.erase, List.filter, h]

theorem get?_map_update_self {α : Type} (d : Dict α) (k : String) (v : α)
    (h : d.contains k = true) :
    Dict.get? (d.map (fun p => if p.1 = k then (k, v) else p)) k = some v := by
  induction d with
  | nil => simp [Dict.contains] at h
  | cons e rest ih =>
    rw [contains_cons] at h
    by_cases hk : e.1 = k
    · simp only [List.map_cons, if_pos hk]
      exact get?_cons_pos _ rfl
    · have hr : Dict.contains rest k = true := by
        simpa [hk] using h
      simp only [List.map_cons, if_neg hk]
      rw [get?_cons_neg _ hk]
      exact ih hr

theorem get?_map_update_ne {α : Type} (d : Dict α) (k k' : String) (v : α)
    (h : ¬ k' = k) :
    Dict.get? (d.map (fun p => if p.1 = k then (k, v) else p)) k' =
      Dict.get? d k' := by
  induction d with
  | nil => rfl
  | cons e rest ih =>
    rw [List.map_cons]
    by_cases hk : e.1 = k
    · have h2 : ¬ (e.1 = k') := by rw [hk]; exact fun hc => h hc.symm
      rw [get?_cons_neg _ (by simp [hk]; exact fun hc => h hc.symm),
        get?_cons_neg rest h2]
      exact ih
    · by_cases hk' : e.1 = k'
      · rw [get?_cons_pos _ (by simp [hk]; exact hk'), get?_cons_pos rest hk']
        simp [hk]
      · rw [get?_cons_neg _ (by simp [hk]; exact hk'), get?_cons_neg rest hk']
        exact ih

theorem get?_append_single_self {α : Type} (d : Dict α) (k : String) (v : α)
    (h : d.contains k = false) :
    Dict.get? (d ++ [(k, v)]) k = some v := by
  induction d with
  | nil => simp [Dict.get?, List.find?]
  | cons e rest ih =>
    rw [contains_cons, Bool.or_eq_false_iff] at h
    have hk : ¬ e.1 = k := by simpa using h.1
    rw [List.cons_append, get?_cons_neg _ hk]
    exact ih h.2

theorem get?_append_single_ne {α : Type} (d : Dict α) (k k' : String) (v : α)
    (h : ¬ k' = k) :
    Dict.get? (d ++ [(k, v)]) k' = Dict.get? d k' := by
  induction d with
  | nil =>
    have h1 : ¬ (k = k') := fun hc => h hc.symm
    simp [Dict.get?, List.find?, h1]
  | cons e rest ih =>
    rw [List.cons_append]
    by_cases hk' : e.1 = k'
    · rw [get?_cons_pos _ hk', get?_cons_pos rest hk']
    · rw [get?_cons_neg _ hk', get?_cons_neg rest hk']
      exact ih

/-- Lookup after `insert`: the inserted key maps to the new value, other
keys are untouched. -/
theorem get?_insert {α : Type} (d : Dict α) (k k' : String) (v : α) :
    (d.insert k v).get? k' = if k' = k then some v else d.get? k' := by
  by_cases hk : k' = k
  · subst hk
    unfold Dict.insert
    by_cases h : d.contains k'
    · simp only [h, if_true, if_pos]
      exact get?_map_update_self d k' v h
    · simp only [Bool.not_eq_true] at h
      simp only [h, Bool.false_eq_true, if_false, if_pos]
      exact get?_append_single_self d k' v h
  · unfold Dict.insert
    by_cases h : d.contains k
    · simp only [h, if_true, if_neg hk]
      exact get?_map_update_ne d k k' v hk
    · simp only [Bool.not_eq_true] at h
      simp only [h, Bool.false_eq_true, if_false, if_neg hk]
      exact get?_append_single_ne d k k' v hk

/-- Lookup after `erase`: the erased key is gone, others are untouched. -/
theorem get?_erase {α : Type} (d : Dict α) (k k' : String) :
    (d.erase k).get? k' = if k' = k then none else d.get? k' := by
  induction d with
  | nil => by_cases hk : k' = k <;> simp [Dict.erase, Dict.get?, List.find?, hk]
  | cons e rest ih =>
    rw [erase_cons]
    by_cases hk : e.1 = k
    · rw [if_pos hk, ih]
      by_cases hk' : k' = k
      · simp [hk']
      · have h2 : ¬ e.1 = k' := by
          rw [hk]; exact fun hc => hk' hc.symm
        rw [if_neg hk', if_neg hk', get?_cons_neg rest h2]
    · rw [if_neg hk]
      by_cases hk' : e.1 = k'
      · have h3 : ¬ k' = k := by rw [← hk']; exact hk
        rw [get?_cons_pos _ hk', if_neg h3, get?_cons_pos rest hk']
      · rw [get?_cons_neg _ hk', ih, get?_cons_neg rest hk']

theorem contains_eq_isSome_get? {α : Type} (d : Dict α) (k : String) :
    d.contains k = (d.get? k).isSome := by
  induction d with
  | nil => rfl
  | cons e rest ih =>
    rw [contains_cons]
    by_cases hk : e.1 = k
    · rw [get?_cons_pos rest hk]
      simp [hk]
    · rw [get?_cons_neg rest hk, ← ih]
      simp [hk]

theorem contains_insert {α : Type} (d : Dict α) (k k' : String) (v : α) :
    (d.insert k v).contains k' = if k' = k then true else d.contains k' := by
  by_cases hk : k' = k <;>
    simp [contains_eq_isSome_get?, get?_insert, hk]

theorem contains_erase {α : Type} (d : Dict α) (k k' : String) :
    (d.erase k).contains k' = if k' = k then false else d.contains k' := by
  by_cases hk : k' = k <;>
    simp [contains_eq_isSome_get?, get?_erase, hk]

theorem contains_of_mem {α : Type} {d : Dict α} {e : String × α}
    (h : e ∈ d) : d.contains e.1 = true := by
  simp only [Dict.contains, List.any_eq_true]
  exact ⟨e, h, by simp⟩

theorem mem_insert {α : Type} {d : Dict α} {k : String} {v : α}
    {e : String × α} (h : e ∈ d.insert k v) :
    e = (k, v) ∨ (e ∈ d ∧ ¬ e.1 = k) := by
  unfold Dict.insert at h
  by_cases hc : d.contains k
  · simp only [hc, if_true] at h
    rcases List.mem_map.mp h with ⟨p, hp, hpe⟩
    by_cases hpk : p.1 = k
    · simp only [hpk, if_true] at hpe
      exact Or.inl hpe.symm
    · simp only [hpk, if_false] at hpe
      subst hpe
      exact Or.inr ⟨hp, hpk⟩
  · simp only [Bool.not_eq_true] at hc
    simp only [hc, Bool.false_eq_true, if_false] at h
    rcases List.mem_append.mp h with h1 | h1
    · refine Or.inr ⟨h1, fun hk => ?_⟩
      have := contains_of_mem h1
      rw [hk, hc] at this
      exact Bool.false_ne_true this
    · simp at h1
      exact Or.inl (by rw [h1])

theorem mem_erase {α : Type} {d : Dict α} {k : String} {e : String × α}
    (h : e ∈ d.erase k) : e ∈ d ∧ ¬ e.1 = k := by
  unfold Dict.erase at h
  have := List.mem_filter.mp h
  refine ⟨this.1, ?_⟩
  have h2 := this.2
  simpa using h2

theorem get?_of_mem_nodup {α : Type} {d : Dict α} {k : String} {v : α}
    (hnd : (d.map Prod.fst).Nodup) (hm : (k, v) ∈ d) :
    d.get? k = some v := by
  induction d with
  | nil => simp at hm
  | cons e rest ih =>
    rw [List.map_cons] at hnd
    have hnd1 := List.nodup_cons.mp hnd
    rcases List.mem_cons.mp hm with h | h
    · rw [← h]
      exact get?_cons_pos rest rfl
    · have hk : ¬ e.1 = k := by
        intro hc
        have h1 : k ∈ rest.map Prod.fst := List.mem_map.mpr ⟨(k, v), h, rfl⟩
        rw [← hc] at h1
        exact hnd1.1 h1
      rw [get?_cons_neg rest hk]
      exact ih hnd1.2 h

theorem mem_of_get?_eq_some {α : Type} {d : Dict α} {k : String} {v : α}
    (h : d.get? k = some v) : (k, v) ∈ d := by
  unfold Dict.get? at h
  cases hf : d.find? (fun p => decide (p.1 = k)) with
  | none => rw [hf] at h; simp at h
  | some e =>
    rw [hf] at h
    simp at h
    have he := List.mem_of_find?_eq_some hf
    have hp := List.find?_some hf
    simp only [decide_eq_true_eq] at hp
    have hev : e = (k, v) := by
      rw [Prod.ext_iff]
      exact ⟨hp, h⟩
    rw [← hev]
    exact he

end Dict

/-! ## Amended lifecycle theorems -/

/-- C3 amended: for a valid create request (platform supported), the claimed
dichotomy holds **provided the store save succeeds**: on supervisor start
success an active record with `started_at` set is durably inserted and the
id returned, on supervisor start failure no record is written and failure is
returned; but when the supervisor start succeeds and the save then fails,
`create_streaming_session` still returns the id while the durable store is
left without the record (a supervised process without a record). -/
theorem C3_create_dichotomy_amended (env : CreateEnv) (st : SessionsData)
    (platform stream_key video_file name rtmp : String)
    (hplat : platformRtmp platform = some rtmp) :
    (env.createServiceOk (sanitize_service_name name) = false →
      create_streaming_session env st platform stream_key video_file name =
        (none, st)) ∧
    (env.createServiceOk (sanitize_service_name name) = true →
      env.saveOk = true →
      (create_streaming_session env st platform stream_key video_file name).1 =
        some (sanitize_service_name name) ∧
      (create_streaming_session env st platform stream_key video_file
          name).2.active_sessions.get? (sanitize_service_name name) =
        some (newSessionRecord env platform stream_key video_file) ∧
      (newSessionRecord env platform stream_key video_file).status =
        some "active" ∧
      (newSessionRecord env platform stream_key video_file).started_at =
        some env.now) ∧
    (env.createServiceOk (sanitize_service_name name) = true →
      env.saveOk = false →
      (create_streaming_session env st platform stream_key video_file name).1 =
        some (sanitize_service_name name) ∧
      (create_streaming_session env st platform stream_key video_file name).2 =
        st) := by
  unfold create_streaming_session
  rw [hplat]
  refine ⟨?_, ?_, ?_⟩
  · intro h
    simp [h]
  · intro h hs
    simp [h, hs, Dict.get?_insert, newSessionRecord]
  · intro h hs
    simp [h, hs]

/-- C3 amended witness: concrete valid create with supervisor and save both
succeeding. -/
theorem C3_create_dichotomy_amended_witness :
    (create_streaming_session okCreateEnv emptySessions
      "YouTube" "key1" "a.mp4" "sess3").1 = some "sess3" := by
  have h := C3_create_dichotomy_amended okCreateEnv emptySessions
    "YouTube" "key1" "a.mp4" "sess3" "rtmp://a.rtmp.youtube.com/live2"
    (by decide)
  have h2 := (h.2.1 (by decide) rfl).1
  rw [h2]
  decide

/-- C4 amended: the module-level `stop_streaming_session` moves an active
record to the inactive bucket with `stopped_at` stamped and `status` set to
`inactive` regardless of whether the supervisor stop succeeded (its result
is only logged), but it does **not** stamp `stop_reason` (the moved record
keeps whatever `stop_reason` it had, i.e. none for a normally created
session); the admin route `api_stop_session` stamps both `stopped_at` and
`stop_reason := "Stopped by admin"`, but only when the supervisor stop
succeeds — when it fails the route returns failure and the record stays in
the active bucket. -/
theorem C4_stop_transition_amended (env : StopEnv) (st : SessionsData)
    (sid : String) (info : SessionInfo)
    (hmem : st.active_sessions.get? sid = some info)
    (hsave : env.saveOk = true) :
    ((stop_streaming_session env st sid).1 = true ∧
     (stop_streaming_session env st sid).2.inactive_sessions.get? sid =
       some { info with stopped_at := some env.now,
                        status := some "inactive" } ∧
     (stop_streaming_session env st sid).2.active_sessions.contains sid =
       false ∧
     ({ info with stopped_at := some env.now,
                  status := some "inactive" } : SessionInfo).stop_reason =
       info.stop_reason) ∧
    (env.stopServiceOk = false →
      api_stop_session env st sid = (false, st)) ∧
    (env.stopServiceOk = true →
      (api_stop_session env st sid).1 = true ∧
      (api_stop_session env st sid).2.inactive_sessions.get? sid =
        some { info with stopped_at := some env.now,
                         stop_reason := some "Stopped by admin" } ∧
      (api_stop_session env st sid).2.active_sessions.contains sid = false) := by
  unfold stop_streaming_session api_stop_session
  rw [hmem]
  refine ⟨?_, ?_, ?_⟩
  · simp [hsave, Dict.get?_insert, Dict.contains_erase]
  · intro h
    simp [h]
  · intro h
    simp [h, hsave, Dict.get?_insert, Dict.contains_erase]

/-- C4 amended witness: concrete active session, supervisor stop succeeds. -/
theorem C4_stop_transition_amended_witness :
    (stop_streaming_session { stopServiceOk := true, saveOk := true, now := "T" }
      { active_sessions := [("s1", { status := some "active" })],
        inactive_sessions := [], scheduled_sessions := [] } "s1").1 = true := by
  have h := C4_stop_transition_amended
    { stopServiceOk := true, saveOk := true, now := "T" }
    { active_sessions := [("s1", { status := some "active" })],
      inactive_sessions := [], scheduled_sessions := [] }
    "s1" { status := some "active" } (by decide) rfl
  exact h.1.1

/-- C6 amended: `create_streaming_session` performs no uniqueness check at
all: whenever the platform is supported and the supervisor start and the
save succeed, it returns the derived id and inserts (or overwrites) the
record in the active bucket, while leaving the inactive and scheduled
buckets untouched — so a record with the same id already present in either
of those buckets silently coexists, and an existing active record with the
same id is silently overwritten. -/
theorem C6_create_no_uniqueness_amended (env : CreateEnv) (st : SessionsData)
    (platform stream_key video_file name rtmp : String)
    (hplat : platformRtmp platform = some rtmp)
    (hok : env.createServiceOk (sanitize_service_name name) = true)
    (hsave : env.saveOk = true) :
    (create_streaming_session env st platform stream_key video_file name).1 =
      some (sanitize_service_name name) ∧
    (create_streaming_session env st platform stream_key video_file
        name).2.active_sessions.get? (sanitize_service_name name) =
      some (newSessionRecord env platform stream_key video_file) ∧
    (create_streaming_session env st platform stream_key video_file
        name).2.inactive_sessions = st.inactive_sessions ∧
    (create_streaming_session env st platform stream_key video_file
        name).2.scheduled_sessions = st.scheduled_sessions := by
  unfold create_streaming_session
  rw [hplat]
  simp [hok, hsave, Dict.get?_insert]

/-- C6 amended witness: create over a store whose inactive bucket already
holds the same id. -/
theorem C6_create_no_uniqueness_amended_witness :
    (create_streaming_session okCreateEnv
      { active_sessions := [],
        inactive_sessions := [("s6", { status := some "inactive" })],
        scheduled_sessions := [] }
      "YouTube" "key1" "a.mp4" "s6").2.inactive_sessions =
      [("s6", { status := some "inactive" })] := by
  have h := C6_create_no_uniqueness_amended okCreateEnv
    { active_sessions := [],
      inactive_sessions := [("s6", { status := some "inactive" })],
      scheduled_sessions := [] }
    "YouTube" "key1" "a.mp4" "s6" "rtmp://a.rtmp.youtube.com/live2"
    (by decide) rfl rfl
  exact h.2.2.1

/-- C8: a schedule request whose parsed start time is not strictly in the
future (`start_dt <= now`) is rejected with the validation message before
any mutation: the store is returned unchanged (no schedule record written)
and no timer is registered. -/
theorem C8_past_start_time_rejected (now : Int) (parse : String → Option Int)
    (saveOk : Bool) (disk : SessionsData)
    (platform stream_key video_file session_name start_time : Option String)
    (duration t : Int)
    (hf : (isTruthy platform && isTruthy stream_key && isTruthy video_file &&
      isTruthy session_name && isTruthy start_time) = true)
    (hp : parse (start_time.getD "") = some t) (hle : t ≤ now) :
    schedule_streaming_api now parse saveOk disk platform stream_key
      video_file session_name start_time duration =
      ((false, "Start time must be in the future"), disk, []) := by
  unfold schedule_streaming_api
  rw [hf, hp]
  simp [hle]

/-- C8 witness: concrete request with start timestamp 50 at current time
100. -/
theorem C8_past_start_time_rejected_witness :
    schedule_streaming_api 100 (fun _ => some 50) true emptySessions
      (some "YouTube") (some "key1") (some "a.mp4") (some "show")
      (some "2026-01-01T00:00:50") 0 =
      ((false, "Start time must be in the future"), emptySessions, []) := by
  exact C8_past_start_time_rejected 100 (fun _ => some 50) true emptySessions
    (some "YouTube") (some "key1") (some "a.mp4") (some "show")
    (some "2026-01-01T00:00:50") 0 50 (by decide) rfl (by decide)

/-- C9 amended: the stop timer (`stop_scheduled_streaming`) looks up the
first active record whose `username` field equals the schedule's
`session_name` and stops that session; when no active record's `username`
equals the session name it stops nothing and leaves the store unchanged.
Since the start timer creates the session keyed by the sanitized session
name with `username` set to the creating account, the created session is
resolved only in the coincidence that the account name equals the session
name — not in general, as the counterexample shows. -/
theorem C9_stop_scheduled_amended (env : StopEnv) (disk : SessionsData)
    (name : String) (hsave : env.saveOk = true)
    (hnd : (disk.active_sessions.map Prod.fst).Nodup) :
    (∀ sid info,
      disk.active_sessions.find?
          (fun e => decide (e.2.username = some name)) = some (sid, info) →
      (stop_scheduled_streaming env disk name).inactive_sessions.contains sid =
        true ∧
      (stop_scheduled_streaming env disk name).active_sessions.contains sid =
        false) ∧
    (disk.active_sessions.find?
        (fun e => decide (e.2.username = some name)) = none →
      stop_scheduled_streaming env disk name = disk) := by
  constructor
  · intro sid info hfind
    have hmem : (sid, info) ∈ disk.active_sessions :=
      List.mem_of_find?_eq_some hfind
    have hget : disk.active_sessions.get? sid = some info :=
      Dict.get?_of_mem_nodup hnd hmem
    have key : stop_scheduled_streaming env disk name =
        (stop_streaming_session env disk sid).2 := by
      unfold stop_scheduled_streaming
      rw [hfind]
    rw [key]
    unfold stop_streaming_session
    rw [hget]
    simp [hsave, Dict.contains_insert, Dict.contains_erase]
  · intro hfind
    unfold stop_scheduled_streaming
    rw [hfind]

/-- C9 amended witness: an active record whose `username` equals the looked
up name is found and stopped. -/
theorem C9_stop_scheduled_amended_witness :
    (stop_scheduled_streaming { stopServiceOk := true, saveOk := true, now := "T" }
      { active_sessions := [("show1", { username := some "n" })],
        inactive_sessions := [], scheduled_sessions := [] }
      "n").inactive_sessions.contains "show1" = true := by
  have h := C9_stop_scheduled_amended
    { stopServiceOk := true, saveOk := true, now := "T" }
    { active_sessions := [("show1", { username := some "n" })],
      inactive_sessions := [], scheduled_sessions := [] }
    "n" rfl (by decide)
  exact (h.1 "show1" { username := some "n" } (by decide)).1

/-! ## Recovery sweep lemmas -/

/-- A sweep iteration over an entry with a different key leaves every fact
about `id` unchanged: lookups in both buckets and membership in the list of
supervisor start calls. -/
theorem recoveryStep_ne_preserves (env : RecoveryEnv) (acc : SweepAcc)
    (e : String × SessionInfo) (id : String) (hne : ¬ e.1 = id) :
    (recoveryStep env acc e).store.active_sessions.get? id =
      acc.store.active_sessions.get? id ∧
    (recoveryStep env acc e).store.inactive_sessions.get? id =
      acc.store.inactive_sessions.get? id ∧
    ((id ∈ (recoveryStep env acc e).startCalls) ↔ id ∈ acc.startCalls) := by
  have hne' : ¬ id = e.1 := fun h => hne h.symm
  by_cases h1 : env.running e.1 = true
  · simp [recoveryStep, h1]
  · by_cases h2 : isTruthy e.2.video_file = false
    · simp [recoveryStep, h1, h2]
    · by_cases h3 : env.fileExists (e.2.video_file.getD "") = false
      · simp [recoveryStep, h1, h2, h3, Dict.get?_insert, Dict.get?_erase,
          hne']
      · by_cases h4 : (isTruthy e.2.platform = false ∨
            isTruthy e.2.stream_key = false)
        · simp [recoveryStep, h1, h2, h3, h4]
        · cases hp : platformRtmp (e.2.platform.getD "") with
          | none => simp [recoveryStep, h1, h2, h3, h4, hp]
          | some r =>
            by_cases h6 : env.createServiceOk e.1 = true
            · simp [recoveryStep, h1, h2, h3, h4, hp, h6, Dict.get?_insert,
                hne']
            · simp [recoveryStep, h1, h2, h3, h4, hp, h6, Dict.get?_insert,
                Dict.get?_erase, hne']

/-- Folding the sweep over entries none of which has key `id` preserves all
facts about `id`. -/
theorem sweep_fold_ne_preserves (env : RecoveryEnv) (id : String) :
    ∀ (L : List (String × SessionInfo)), (∀ e ∈ L, ¬ e.1 = id) →
    ∀ (acc : SweepAcc),
    (L.foldl (recoveryStep env) acc).store.active_sessions.get? id =
      acc.store.active_sessions.get? id ∧
    (L.foldl (recoveryStep env) acc).store.inactive_sessions.get? id =
      acc.store.inactive_sessions.get? id ∧
    ((id ∈ (L.foldl (recoveryStep env) acc).startCalls) ↔
      id ∈ acc.startCalls) := by
  intro L
  induction L with
  | nil => intro _ acc; exact ⟨rfl, rfl, Iff.rfl⟩
  | cons e rest ih =>
    intro hL acc
    have he : ¬ e.1 = id := hL e (List.mem_cons_self e rest)
    have hrest : ∀ f ∈ rest, ¬ f.1 = id :=
      fun f hf => hL f (List.mem_cons_of_mem e hf)
    have h1 := recoveryStep_ne_preserves env acc e id he
    have h2 := ih hrest (recoveryStep env acc e)
    rw [List.foldl_cons]
    exact ⟨h2.1.trans h1.1, h2.2.1.trans h1.2.1, h2.2.2.trans h1.2.2⟩

/-- The sweep iteration on an orphaned entry whose `video_file` is present
but missing on disk: it demotes the record to inactive with the exact
`stop_reason` and does not call the supervisor start. -/
theorem recoveryStep_demote_missing_video (env : RecoveryEnv)
    (acc : SweepAcc) (id : String) (info : SessionInfo)
    (hrun : env.running id = false)
    (hvid : isTruthy info.video_file = true)
    (hfe : env.fileExists (info.video_file.getD "") = false) :
    recoveryStep env acc (id, info) = { acc with
      store := { acc.store with
        inactive_sessions := acc.store.inactive_sessions.insert id
          { info with
            stopped_at := some env.now,
            stop_reason := some "Video file not found during recovery",
            status := some "inactive" },
        active_sessions := acc.store.active_sessions.erase id },
      moved := acc.moved + 1 } := by
  simp [recoveryStep, hrun, hvid, hfe]

/-- The sweep iteration on an orphaned entry whose `video_file` field is
absent (falsy): it does nothing at all. -/
theorem recoveryStep_skip_absent_video (env : RecoveryEnv)
    (acc : SweepAcc) (id : String) (info : SessionInfo)
    (hrun : env.running id = false)
    (hvid : isTruthy info.video_file = false) :
    recoveryStep env acc (id, info) = acc := by
  simp [recoveryStep, hrun, hvid]

/-- Folding the sweep over a key-unique list containing the
missing-on-disk orphan `(id, info)`: the final accumulator has `id` demoted
to inactive with the exact reason, absent from the active bucket, and never
among the supervisor start calls. -/
theorem sweep_fold_demote_missing_video (env : RecoveryEnv) (id : String)
    (info : SessionInfo) (hrun : env.running id = false)
    (hvid : isTruthy info.video_file = true)
    (hfe : env.fileExists (info.video_file.getD "") = false) :
    ∀ (L : List (String × SessionInfo)), (L.map Prod.fst).Nodup →
    (id, info) ∈ L → ∀ (acc : SweepAcc), id ∉ acc.startCalls →
    (L.foldl (recoveryStep env) acc).store.active_sessions.get? id = none ∧
    (L.foldl (recoveryStep env) acc).store.inactive_sessions.get? id =
      some { info with
        stopped_at := some env.now,
        stop_reason := some "Video file not found during recovery",
        status := some "inactive" } ∧
    id ∉ (L.foldl (recoveryStep env) acc).startCalls := by
  intro L
  induction L with
  | nil => intro _ hm; exact absurd hm (List.not_mem_nil _)
  | cons e rest ih =>
    intro hnd hm acc hsc
    rw [List.map_cons] at hnd
    have hnd1 := List.nodup_cons.mp hnd
    rw [List.foldl_cons]
    rcases List.mem_cons.mp hm with hh | hh
    · have he1 : e.1 = id := by rw [← hh]
      have hkeys : ∀ f ∈ rest, ¬ f.1 = id := by
        intro f hf hfk
        have hmem2 : f.1 ∈ rest.map Prod.fst := List.mem_map.mpr ⟨f, hf, rfl⟩
        rw [hfk, ← he1] at hmem2
        exact hnd1.1 hmem2
      rw [← hh]
      rw [recoveryStep_demote_missing_video env acc id info hrun hvid hfe]
      have hpres := sweep_fold_ne_preserves env id rest hkeys
        { acc with
          store := { acc.store with
            inactive_sessions := acc.store.inactive_sessions.insert id
              { info with
                stopped_at := some env.now,
                stop_reason := some "Video file not found during recovery",
                status := some "inactive" },
            active_sessions := acc.store.active_sessions.erase id },
          moved := acc.moved + 1 }
      refine ⟨?_, ?_, ?_⟩
      · rw [hpres.1]
        simp [Dict.get?_erase]
      · rw [hpres.2.1]
        simp [Dict.get?_insert]
      · intro hin
        exact hsc ((hpres.2.2).mp hin)
    · have hek : ¬ e.1 = id := by
        intro hfk
        have : id ∈ rest.map Prod.fst := List.mem_map.mpr ⟨(id, info), hh, rfl⟩
        rw [← hfk] at this
        exact hnd1.1 this
      have hstep := recoveryStep_ne_preserves env acc e id hek
      have hsc' : id ∉ (recoveryStep env acc e).startCalls :=
        fun hin => hsc (hstep.2.2.mp hin)
      exact ih hnd1.2 hh (recoveryStep env acc e) hsc'

/-- Folding the sweep over a key-unique list containing the orphan
`(id, info)` with absent `video_file`: the entry is skipped, so the final
accumulator still maps `id` to `info` in the active bucket (if it did
before) and never calls the supervisor start for `id`. -/
theorem sweep_fold_skip_absent_video (env : RecoveryEnv) (id : String)
    (info : SessionInfo) (hrun : env.running id = false)
    (hvid : isTruthy info.video_file = false) :
    ∀ (L : List (String × SessionInfo)), (L.map Prod.fst).Nodup →
    (id, info) ∈ L → ∀ (acc : SweepAcc),
    acc.store.active_sessions.get? id = some info → id ∉ acc.startCalls →
    (L.foldl (recoveryStep env) acc).store.active_sessions.get? id =
      some info ∧
    id ∉ (L.foldl (recoveryStep env) acc).startCalls := by
  intro L
  induction L with
  | nil => intro _ hm; exact absurd hm (List.not_mem_nil _)
  | cons e rest ih =>
    intro hnd hm acc hget hsc
    rw [List.map_cons] at hnd
    have hnd1 := List.nodup_cons.mp hnd
    rw [List.foldl_cons]
    rcases List.mem_cons.mp hm with hh | hh
    · have he1 : e.1 = id := by rw [← hh]
      have hkeys : ∀ f ∈ rest, ¬ f.1 = id := by
        intro f hf hfk
        have hmem2 : f.1 ∈ rest.map Prod.fst := List.mem_map.mpr ⟨f, hf, rfl⟩
        rw [hfk, ← he1] at hmem2
        exact hnd1.1 hmem2
      rw [← hh, recoveryStep_skip_absent_video env acc id info hrun hvid]
      have hpres := sweep_fold_ne_preserves env id rest hkeys acc
      exact ⟨hpres.1.trans hget, fun hin => hsc (hpres.2.2.mp hin)⟩
    · have hek : ¬ e.1 = id := by
        intro hfk
        have : id ∈ rest.map Prod.fst := List.mem_map.mpr ⟨(id, info), hh, rfl⟩
        rw [← hfk] at this
        exact hnd1.1 this
      have hstep := recoveryStep_ne_preserves env acc e id hek
      exact ih hnd1.2 hh (recoveryStep env acc e)
        (hstep.1.trans hget) (fun hin => hsc (hstep.2.2.mp hin))

/-- C2 amended: for an active-bucket session whose unit is not running, the
sweep distinguishes the two video cases: when `video_file` is present but
the file does not exist on disk, the record is moved to the inactive bucket
with `stop_reason` exactly `"Video file not found during recovery"` and the
supervisor start is never called for it; when the `video_file` field is
absent (falsy), the session is logged and skipped — it stays in the active
bucket unchanged, and the supervisor start is likewise never called. -/
theorem C2_video_recovery_amended (env : RecoveryEnv) (st : SessionsData)
    (id : String) (info : SessionInfo)
    (hnd : (st.active_sessions.map Prod.fst).Nodup)
    (hget : st.active_sessions.get? id = some info)
    (hrun : env.running id = false)
    (hsave : env.saveOk = true) :
    (isTruthy info.video_file = true →
      env.fileExists (info.video_file.getD "") = false →
      (recovery_orphaned_sessions env st).store.active_sessions.get? id =
        none ∧
      (recovery_orphaned_sessions env st).store.inactive_sessions.get? id =
        some { info with
          stopped_at := some env.now,
          stop_reason := some "Video file not found during recovery",
          status := some "inactive" } ∧
      id ∉ (recovery_orphaned_sessions env st).startCalls) ∧
    (isTruthy info.video_file = false →
      (recovery_orphaned_sessions env st).store.active_sessions.get? id =
        some info ∧
      id ∉ (recovery_orphaned_sessions env st).startCalls) := by
  have hmem : (id, info) ∈ st.active_sessions := Dict.mem_of_get?_eq_some hget
  have hnemp : st.active_sessions.isEmpty = false := by
    cases hl : st.active_sessions with
    | nil => rw [hl] at hmem; exact absurd hmem (List.not_mem_nil _)
    | cons a l => rfl
  have hstore : (recovery_orphaned_sessions env st).store =
      (st.active_sessions.foldl (recoveryStep env)
        { store := st, recovered := 0, moved := 0, startCalls := [] }).store := by
    unfold recovery_orphaned_sessions
    simp [hnemp, hsave]
  have hcalls : (recovery_orphaned_sessions env st).startCalls =
      (st.active_sessions.foldl (recoveryStep env)
        { store := st, recovered := 0, moved := 0, startCalls := [] }).startCalls := by
    unfold recovery_orphaned_sessions
    simp [hnemp]
  constructor
  · intro hvid hfe
    have h := sweep_fold_demote_missing_video env id info hrun hvid hfe
      st.active_sessions hnd hmem
      { store := st, recovered := 0, moved := 0, startCalls := [] }
      (List.not_mem_nil id)
    rw [hstore, hcalls]
    exact h
  · intro hvid
    have h := sweep_fold_skip_absent_video env id info hrun hvid
      st.active_sessions hnd hmem
      { store := st, recovered := 0, moved := 0, startCalls := [] }
      hget (List.not_mem_nil id)
    rw [hstore, hcalls]
    exact h

/-- C2 amended witness: a concrete orphaned session whose `video_file`
names a file that does not exist on disk is demoted with the exact
reason. -/
theorem C2_video_recovery_amended_witness :
    (recovery_orphaned_sessions
      { running := fun _ => false, fileExists := fun _ => false,
        createServiceOk := fun _ => true, saveOk := true, now := "T" }
      { active_sessions :=
          [("s1", { video_file := some "gone.mp4", status := some "active" })],
        inactive_sessions := [],
        scheduled_sessions := [] }).store.inactive_sessions.get? "s1" =
      some { video_file := some "gone.mp4",
             stopped_at := some "T",
             stop_reason := some "Video file not found during recovery",
             status := some "inactive" } := by
  have h := C2_video_recovery_amended
    { running := fun _ => false, fileExists := fun _ => false,
      createServiceOk := fun _ => true, saveOk := true, now := "T" }
    { active_sessions :=
        [("s1", { video_file := some "gone.mp4", status := some "active" })],
      inactive_sessions := [],
      scheduled_sessions := [] }
    "s1" { video_file := some "gone.mp4", status := some "active" }
    (by decide) (by decide) rfl rfl
  exact (h.1 (by decide) rfl).2.1

/-! ## Bucket exclusivity -/

/-- No session id is present in both the active and the inactive bucket. -/
def bucketsDisjoint (st : SessionsData) : Prop :=
  ∀ k, ¬ (st.active_sessions.contains k = true ∧
    st.inactive_sessions.contains k = true)

theorem stop_preserves_disjoint (env : StopEnv) (st : SessionsData)
    (sid : String) (h : bucketsDisjoint st) :
    bucketsDisjoint (stop_streaming_session env st sid).2 := by
  unfold stop_streaming_session
  cases hg : st.active_sessions.get? sid with
  | none => exact h
  | some info =>
    by_cases hs : env.saveOk = true
    · simp only [hs, if_true]
      intro k hk
      rw [Dict.contains_erase] at hk
      rw [Dict.contains_insert] at hk
      by_cases hks : k = sid
      · rw [if_pos hks] at hk
        exact Bool.false_ne_true hk.1
      · rw [if_neg hks] at hk
        rw [if_neg hks] at hk
        exact h k hk
    · simp only [Bool.not_eq_true] at hs
      simp only [hs, Bool.false_eq_true, if_false]
      exact h

theorem recoveryStep_preserves_disjoint (env : RecoveryEnv) (acc : SweepAcc)
    (e : String × SessionInfo) (h : bucketsDisjoint acc.store)
    (hin : acc.store.inactive_sessions.contains e.1 = false) :
    bucketsDisjoint (recoveryStep env acc e).store := by
  have hdem : bucketsDisjoint { acc.store with
      inactive_sessions := acc.store.inactive_sessions.insert e.1
        { e.2 with
          stopped_at := some env.now,
          stop_reason := some "Video file not found during recovery",
          status := some "inactive" },
      active_sessions := acc.store.active_sessions.erase e.1 } := by
    intro k hk
    simp only at hk
    rw [Dict.contains_erase, Dict.contains_insert] at hk
    by_cases hks : k = e.1
    · rw [if_pos hks] at hk
      exact Bool.false_ne_true hk.1
    · rw [if_neg hks] at hk
      rw [if_neg hks] at hk
      exact h k hk
  have hdem2 : bucketsDisjoint { acc.store with
      inactive_sessions := acc.store.inactive_sessions.insert e.1
        { e.2 with
          stopped_at := some env.now,
          stop_reason := some "Recovery failed",
          status := some "inactive" },
      active_sessions := acc.store.active_sessions.erase e.1 } := by
    intro k hk
    simp only at hk
    rw [Dict.contains_erase, Dict.contains_insert] at hk
    by_cases hks : k = e.1
    · rw [if_pos hks] at hk
      exact Bool.false_ne_true hk.1
    · rw [if_neg hks] at hk
      rw [if_neg hks] at hk
      exact h k hk
  have hrec : bucketsDisjoint { acc.store with
      active_sessions := acc.store.active_sessions.insert e.1
        { e.2 with
          recovered_at := some env.now,
          recovery_count := some (e.2.recovery_count.getD 0 + 1) } } := by
    intro k hk
    simp only at hk
    rw [Dict.contains_insert] at hk
    by_cases hks : k = e.1
    · rw [hks] at hk
      rw [hin] at hk
      exact Bool.false_ne_true hk.2
    · rw [if_neg hks] at hk
      exact h k hk
  by_cases h1 : env.running e.1 = true
  · simpa [recoveryStep, h1] using h
  · by_cases h2 : isTruthy e.2.video_file = false
    · simpa [recoveryStep, h1, h2] using h
    · by_cases h3 : env.fileExists (e.2.video_file.getD "") = false
      · simpa [recoveryStep, h1, h2, h3] using hdem
      · by_cases h4 : (isTruthy e.2.platform = false ∨
            isTruthy e.2.stream_key = false)
        · simpa [recoveryStep, h1, h2, h3, h4] using h
        · cases hp : platformRtmp (e.2.platform.getD "") with
          | none => simpa [recoveryStep, h1, h2, h3, h4, hp] using h
          | some r =>
            by_cases h6 : env.createServiceOk e.1 = true
            · simpa [recoveryStep, h1, h2, h3, h4, hp, h6] using hrec
            · simpa [recoveryStep, h1, h2, h3, h4, hp, h6] using hdem2

theorem recoveryStep_inactive_other (env : RecoveryEnv) (acc : SweepAcc)
    (e : String × SessionInfo) (j : String) (hne : ¬ e.1 = j) :
    (recoveryStep env acc e).store.inactive_sessions.contains j =
      acc.store.inactive_sessions.contains j := by
  rw [Dict.contains_eq_isSome_get?, Dict.contains_eq_isSome_get?,
    (recoveryStep_ne_preserves env acc e j hne).2.1]

theorem sweep_fold_preserves_disjoint (env : RecoveryEnv) :
    ∀ (L : List (String × SessionInfo)) (acc : SweepAcc),
    bucketsDisjoint acc.store →
    (∀ f ∈ L, acc.store.inactive_sessions.contains f.1 = false) →
    (L.map Prod.fst).Nodup →
    bucketsDisjoint (L.foldl (recoveryStep env) acc).store := by
  intro L
  induction L with
  | nil => intro acc h _ _; exact h
  | cons e rest ih =>
    intro acc h hL hnd
    rw [List.map_cons] at hnd
    have hnd1 := List.nodup_cons.mp hnd
    rw [List.foldl_cons]
    have hd' := recoveryStep_preserves_disjoint env acc e h
      (hL e (List.mem_cons_self e rest))
    have hin' : ∀ f ∈ rest,
        (recoveryStep env acc e).store.inactive_sessions.contains f.1 =
          false := by
      intro f hf
      have hne : ¬ e.1 = f.1 := by
        intro hc
        have : f.1 ∈ rest.map Prod.fst := List.mem_map.mpr ⟨f, hf, rfl⟩
        rw [← hc] at this
        exact hnd1.1 this
      rw [recoveryStep_inactive_other env acc e f.1 hne]
      exact hL f (List.mem_cons_of_mem e hf)
    exact ih (recoveryStep env acc e) hd' hin' hnd1.2

theorem create_preserves_disjoint (env : CreateEnv) (st : SessionsData)
    (platform stream_key video_file name : String)
    (h : bucketsDisjoint st)
    (hni : st.inactive_sessions.contains (sanitize_service_name name) =
      false) :
    bucketsDisjoint
      (create_streaming_session env st platform stream_key video_file
        name).2 := by
  unfold create_streaming_session
  cases hp : platformRtmp platform with
  | none => exact h
  | some r =>
    by_cases hc : env.createServiceOk (sanitize_service_name name) = true
    · by_cases hs : env.saveOk = true
      · simp only [hc, if_true, hs]
        intro k hk
        simp only at hk
        rw [Dict.contains_insert] at hk
        by_cases hks : k = sanitize_service_name name
        · rw [hks] at hk
          rw [hni] at hk
          exact Bool.false_ne_true hk.2
        · rw [if_neg hks] at hk
          exact h k hk
      · simp only [Bool.not_eq_true] at hs
        simp only [hc, if_true, hs, Bool.false_eq_true, if_false]
        exact h
    · simp only [Bool.not_eq_true] at hc
      simp only [hc, Bool.false_eq_true, if_false]
      exact h

/-- C1 amended: the exclusivity invariant (no id in both buckets) is
preserved by `stop_streaming_session`, by the recovery sweep, and by
`create_streaming_session` **provided** the id derived from the created name
is not already in the inactive bucket — the proviso the counterexample
shows to be necessary, since create performs no membership check.
Moreover a created id is present in the active bucket afterwards and a
stopped id is present in the inactive bucket afterwards ("never neither"). -/
theorem C1_exclusive_buckets_amended (st : SessionsData)
    (hd : bucketsDisjoint st)
    (hnd : (st.active_sessions.map Prod.fst).Nodup)
    (senv : StopEnv) (renv : RecoveryEnv) (cenv : CreateEnv)
    (sid platform stream_key video_file name : String)
    (hni : st.inactive_sessions.contains (sanitize_service_name name) =
      false) :
    bucketsDisjoint (stop_streaming_session senv st sid).2 ∧
    bucketsDisjoint (recovery_orphaned_sessions renv st).store ∧
    bucketsDisjoint
      (create_streaming_session cenv st platform stream_key video_file
        name).2 ∧
    ((stop_streaming_session senv st sid).1 = true → senv.saveOk = true →
      (stop_streaming_session senv st sid).2.inactive_sessions.contains sid =
        true) ∧
    (∀ r, (create_streaming_session cenv st platform stream_key video_file
        name).1 = some r → cenv.saveOk = true →
      (create_streaming_session cenv st platform stream_key video_file
        name).2.active_sessions.contains r = true) := by
  refine ⟨stop_preserves_disjoint senv st sid hd, ?_,
    create_preserves_disjoint cenv st platform stream_key video_file name hd
      hni, ?_, ?_⟩
  · unfold recovery_orphaned_sessions
    by_cases he : st.active_sessions.isEmpty = true
    · simp only [he, if_true]
      exact hd
    · simp only [Bool.not_eq_true] at he
      simp only [he, Bool.false_eq_true, if_false]
      have hfold := sweep_fold_preserves_disjoint renv st.active_sessions
        { store := st, recovered := 0, moved := 0, startCalls := [] } hd
        (by
          intro f hf
          have hact := Dict.contains_of_mem hf
          rcases hx : st.inactive_sessions.contains f.1 with _ | _
          · rfl
          · exact absurd ⟨hact, hx⟩ (hd f.1))
        hnd
      by_cases hs : renv.saveOk = true
      · simpa [hs] using hfold
      · simp only [Bool.not_eq_true] at hs
        simpa [hs] using hd
  · intro hres hsave
    unfold stop_streaming_session at hres ⊢
    cases hg : st.active_sessions.get? sid with
    | none => rw [hg] at hres; exact absurd hres (by simp)
    | some info =>
      simp only [hg, hsave, if_true]
      rw [Dict.contains_insert]
      simp
  · intro r hres hsave
    unfold create_streaming_session at hres ⊢
    cases hp : platformRtmp platform with
    | none => rw [hp] at hres; exact absurd hres (by simp)
    | some u =>
      rw [hp] at hres
      by_cases hc : cenv.createServiceOk (sanitize_service_name name) = true
      · simp only [hc, if_true] at hres ⊢
        have hr : r = sanitize_service_name name := by
          simpa using hres.symm
        simp only [hsave, if_true]
        rw [hr, Dict.contains_insert]
        simp
      · simp only [Bool.not_eq_true] at hc
        simp only [hc, Bool.false_eq_true, if_false] at hres
        simp at hres

/-- C1 amended witness: a store with one active session and empty inactive
bucket; all three preserved operations applied with concrete arguments. -/
theorem C1_exclusive_buckets_amended_witness :
    bucketsDisjoint (stop_streaming_session
      { stopServiceOk := true, saveOk := true, now := "T" }
      { active_sessions := [("a1", { status := some "active" })],
        inactive_sessions := [], scheduled_sessions := [] } "a1").2 := by
  have h := C1_exclusive_buckets_amended
    { active_sessions := [("a1", { status := some "active" })],
      inactive_sessions := [], scheduled_sessions := [] }
    (by
      intro k hk
      simpa [Dict.contains] using hk.2)
    (by decide)
    { stopServiceOk := true, saveOk := true, now := "T" }
    { running := fun _ => true, fileExists := fun _ => true,
      createServiceOk := fun _ => true, saveOk := true, now := "T" }
    okCreateEnv
    "a1" "YouTube" "key1" "a.mp4" "fresh"
    (by decide)
  exact h.1

/-! ## Sweep idempotence -/

/-- An active-bucket entry on which a sweep under `env2` takes one of the
non-mutating branches: its unit reports running, or its `video_file` is
falsy, or its video file exists on disk but the restart data is unusable
(falsy `platform`/`stream_key` or unsupported platform). -/
def safeEntry (env2 : RecoveryEnv) (e : String × SessionInfo) : Prop :=
  env2.running e.1 = true ∨ isTruthy e.2.video_file = false ∨
  (env2.fileExists (e.2.video_file.getD "") = true ∧
    (isTruthy e.2.platform = false ∨ isTruthy e.2.stream_key = false ∨
      platformRtmp (e.2.platform.getD "") = none))

/-- A sweep iteration over a safe entry is the identity on the
accumulator. -/
theorem recoveryStep_safe_id (env2 : RecoveryEnv) (acc : SweepAcc)
    (e : String × SessionInfo) (h : safeEntry env2 e) :
    recoveryStep env2 acc e = acc := by
  by_cases h1 : env2.running e.1 = true
  · simp [recoveryStep, h1]
  · by_cases h2 : isTruthy e.2.video_file = false
    · simp [recoveryStep, h1, h2]
    · rcases h with h | h | ⟨h3, h4⟩
      · exact absurd h h1
      · exact absurd h h2
      · by_cases h5 : (isTruthy e.2.platform = false ∨
            isTruthy e.2.stream_key = false)
        · simp [recoveryStep, h1, h2, h3, h5]
        · rcases h4 with h4 | h4 | h4
          · exact absurd (Or.inl h4) h5
          · exact absurd (Or.inr h4) h5
          · simp [recoveryStep, h1, h2, h3, h5, h4]

/-- A sweep fold over a list of safe entries is the identity on the
accumulator. -/
theorem sweep_fold_safe_id (env2 : RecoveryEnv) :
    ∀ (L : List (String × SessionInfo)), (∀ e ∈ L, safeEntry env2 e) →
    ∀ (acc : SweepAcc), L.foldl (recoveryStep env2) acc = acc := by
  intro L
  induction L with
  | nil => intro _ acc; rfl
  | cons e rest ih =>
    intro hL acc
    rw [List.foldl_cons,
      recoveryStep_safe_id env2 acc e (hL e (List.mem_cons_self e rest))]
    exact ih (fun f hf => hL f (List.mem_cons_of_mem e hf)) acc

/-- After a sweep under `env1`, every entry left in the active bucket is
safe for any `env2` that reports running everything `env1` reported running
plus everything whose supervisor start under `env1` succeeds, and that sees
the same video files on disk. -/
theorem sweep_fold_all_safe (env1 env2 : RecoveryEnv)
    (hrun : ∀ k, env1.running k = true → env2.running k = true)
    (hstart : ∀ k, env1.createServiceOk k = true → env2.running k = true)
    (hfile : ∀ v, env2.fileExists v = env1.fileExists v) :
    ∀ (L : List (String × SessionInfo)) (acc : SweepAcc),
    (∀ e ∈ acc.store.active_sessions, e ∈ L ∨ safeEntry env2 e) →
    ∀ f ∈ (L.foldl (recoveryStep env1) acc).store.active_sessions,
      safeEntry env2 f := by
  intro L
  induction L with
  | nil =>
    intro acc h f hf
    rcases h f hf with h1 | h1
    · exact absurd h1 (List.not_mem_nil f)
    · exact h1
  | cons e rest ih =>
    intro acc h
    rw [List.foldl_cons]
    apply ih
    intro f hf
    by_cases h1 : env1.running e.1 = true
    · have hacc : recoveryStep env1 acc e = acc := by
        simp [recoveryStep, h1]
      rw [hacc] at hf
      rcases h f hf with hm | hm
      · rcases List.mem_cons.mp hm with hfe | hfe
        · refine Or.inr (Or.inl ?_)
          rw [hfe]
          exact hrun e.1 h1
        · exact Or.inl hfe
      · exact Or.inr hm
    · by_cases h2 : isTruthy e.2.video_file = false
      · have hacc : recoveryStep env1 acc e = acc := by
          simp [recoveryStep, h1, h2]
        rw [hacc] at hf
        rcases h f hf with hm | hm
        · rcases List.mem_cons.mp hm with hfe | hfe
          · refine Or.inr (Or.inr (Or.inl ?_))
            rw [hfe]
            exact h2
          · exact Or.inl hfe
        · exact Or.inr hm
      · by_cases h3 : env1.fileExists (e.2.video_file.getD "") = false
        · have hact : (recoveryStep env1 acc e).store.active_sessions =
              acc.store.active_sessions.erase e.1 := by
            simp [recoveryStep, h1, h2, h3]
          rw [hact] at hf
          rcases Dict.mem_erase hf with ⟨hfa, hfk⟩
          rcases h f hfa with hm | hm
          · rcases List.mem_cons.mp hm with hfe | hfe
            · exact absurd (by rw [hfe]) hfk
            · exact Or.inl hfe
          · exact Or.inr hm
        · have h3' : env1.fileExists (e.2.video_file.getD "") = true := by
            cases hx : env1.fileExists (e.2.video_file.getD "") with
            | false => exact absurd hx h3
            | true => rfl
          by_cases h4 : (isTruthy e.2.platform = false ∨
              isTruthy e.2.stream_key = false)
          · have hacc : recoveryStep env1 acc e = acc := by
              simp [recoveryStep, h1, h2, h3, h4]
            rw [hacc] at hf
            rcases h f hf with hm | hm
            · rcases List.mem_cons.mp hm with hfe | hfe
              · refine Or.inr (Or.inr (Or.inr ?_))
                rw [hfe]
                exact ⟨(hfile _).trans h3', h4.imp id Or.inl⟩
              · exact Or.inl hfe
            · exact Or.inr hm
          · cases hp : platformRtmp (e.2.platform.getD "") with
            | none =>
              have hacc : recoveryStep env1 acc e = acc := by
                simp [recoveryStep, h1, h2, h3, h4, hp]
              rw [hacc] at hf
              rcases h f hf with hm | hm
              · rcases List.mem_cons.mp hm with hfe | hfe
                · refine Or.inr (Or.inr (Or.inr ?_))
                  rw [hfe]
                  exact ⟨(hfile _).trans h3', Or.inr (Or.inr hp)⟩
                · exact Or.inl hfe
              · exact Or.inr hm
            | some r =>
              by_cases h6 : env1.createServiceOk e.1 = true
              · have hact : (recoveryStep env1 acc e).store.active_sessions =
                    acc.store.active_sessions.insert e.1
                      { e.2 with
                        recovered_at := some env1.now,
                        recovery_count :=
                          some (e.2.recovery_count.getD 0 + 1) } := by
                  simp [recoveryStep, h1, h2, h3, h4, hp, h6]
                rw [hact] at hf
                rcases Dict.mem_insert hf with hfe | ⟨hfa, hfk⟩
                · refine Or.inr (Or.inl ?_)
                  rw [hfe]
                  exact hstart e.1 h6
                · rcases h f hfa with hm | hm
                  · rcases List.mem_cons.mp hm with hfe | hfe
                    · exact absurd (by rw [hfe]) hfk
                    · exact Or.inl hfe
                  · exact Or.inr hm
              · have hact : (recoveryStep env1 acc e).store.active_sessions =
                    acc.store.active_sessions.erase e.1 := by
                  simp [recoveryStep, h1, h2, h3, h4, hp, h6]
                rw [hact] at hf
                rcases Dict.mem_erase hf with ⟨hfa, hfk⟩
                rcases h f hfa with hm | hm
                · rcases List.mem_cons.mp hm with hfe | hfe
                  · exact absurd (by rw [hfe]) hfk
                  · exact Or.inl hfe
                · exact Or.inr hm

/-- The counters of one sweep iteration do not depend on the clock: the
branch taken is decided only by the supervisor state, the disk and the
entry, and `now` flows only into the timestamp fields of the records. -/
theorem recoveryStep_counts_now (env : RecoveryEnv) (n : String)
    (a b : SweepAcc) (e : String × SessionInfo)
    (hr : a.recovered = b.recovered) (hm : a.moved = b.moved) :
    (recoveryStep { env with now := n } a e).recovered =
      (recoveryStep env b e).recovered ∧
    (recoveryStep { env with now := n } a e).moved =
      (recoveryStep env b e).moved := by
  by_cases h1 : env.running e.1 = true
  · constructor <;> simp [recoveryStep, h1, hr, hm]
  · by_cases h2 : isTruthy e.2.video_file = false
    · constructor <;> simp [recoveryStep, h1, h2, hr, hm]
    · by_cases h3 : env.fileExists (e.2.video_file.getD "") = false
      · constructor <;> simp [recoveryStep, h1, h2, h3, hr, hm]
      · by_cases h4 : (isTruthy e.2.platform = false ∨
            isTruthy e.2.stream_key = false)
        · constructor <;> simp [recoveryStep, h1, h2, h3, h4, hr, hm]
        · cases hp : platformRtmp (e.2.platform.getD "") with
          | none => constructor <;> simp [recoveryStep, h1, h2, h3, h4, hp, hr, hm]
          | some r =>
            by_cases h6 : env.createServiceOk e.1 = true
            · constructor <;>
                simp [recoveryStep, h1, h2, h3, h4, hp, h6, hr, hm]
            · constructor <;>
                simp [recoveryStep, h1, h2, h3, h4, hp, h6, hr, hm]

/-- The counters of a whole sweep fold do not depend on the clock. -/
theorem sweep_fold_counts_now (env : RecoveryEnv) (n : String) :
    ∀ (L : List (String × SessionInfo)) (a b : SweepAcc),
    a.recovered = b.recovered → a.moved = b.moved →
    (L.foldl (recoveryStep { env with now := n }) a).recovered =
      (L.foldl (recoveryStep env) b).recovered ∧
    (L.foldl (recoveryStep { env with now := n }) a).moved =
      (L.foldl (recoveryStep env) b).moved := by
  intro L
  induction L with
  | nil => intro a b hr hm; exact ⟨hr, hm⟩
  | cons e rest ih =>
    intro a b hr hm
    rw [List.foldl_cons, List.foldl_cons]
    have hstep := recoveryStep_counts_now env n a b e hr hm
    exact ih (recoveryStep { env with now := n } a e) (recoveryStep env b e)
      hstep.1 hstep.2

/-- C7: under a fixed supervisor state — anything running stays running, a
successful start is subsequently reported running, the disk is unchanged —
running the reconciliation sweep on the committed snapshot of a previous
sweep yields `recovered = 0` and `moved_to_inactive = 0`; and the sweep's
counters are a function of the store snapshot and the supervisor/disk state
only — the clock (`now`), which flows only into the timestamp fields of the
records, does not affect them. -/
theorem C7_sweep_idempotent (env1 env2 : RecoveryEnv) (st : SessionsData)
    (hsave : env1.saveOk = true)
    (hrun : ∀ k, env1.running k = true → env2.running k = true)
    (hstart : ∀ k, env1.createServiceOk k = true → env2.running k = true)
    (hfile : ∀ v, env2.fileExists v = env1.fileExists v) :
    (recovery_orphaned_sessions env2
      (recovery_orphaned_sessions env1 st).store).recovered = 0 ∧
    (recovery_orphaned_sessions env2
      (recovery_orphaned_sessions env1 st).store).moved = 0 ∧
    (∀ n, (recovery_orphaned_sessions { env1 with now := n } st).recovered =
        (recovery_orphaned_sessions env1 st).recovered ∧
      (recovery_orphaned_sessions { env1 with now := n } st).moved =
        (recovery_orphaned_sessions env1 st).moved) := by
  have hmain : (recovery_orphaned_sessions env2
      (recovery_orphaned_sessions env1 st).store).recovered = 0 ∧
      (recovery_orphaned_sessions env2
        (recovery_orphaned_sessions env1 st).store).moved = 0 := by
    by_cases he : st.active_sessions.isEmpty = true
    · have h1 : (recovery_orphaned_sessions env1 st).store = st := by
        unfold recovery_orphaned_sessions
        simp [he]
      rw [h1]
      unfold recovery_orphaned_sessions
      simp [he]
    · have hstore : (recovery_orphaned_sessions env1 st).store =
          (st.active_sessions.foldl (recoveryStep env1)
            { store := st, recovered := 0, moved := 0,
              startCalls := [] }).store := by
        unfold recovery_orphaned_sessions
        simp only [Bool.not_eq_true] at he
        simp [he, hsave]
      have hsafe := sweep_fold_all_safe env1 env2 hrun hstart hfile
        st.active_sessions
        { store := st, recovered := 0, moved := 0, startCalls := [] }
        (fun e hm => Or.inl hm)
      rw [hstore]
      set L2 := (st.active_sessions.foldl (recoveryStep env1)
        { store := st, recovered := 0, moved := 0,
          startCalls := [] }).store.active_sessions with hL2
      by_cases he2 : L2.isEmpty = true
      · unfold recovery_orphaned_sessions
        simp [he2]
      · unfold recovery_orphaned_sessions
        simp only [Bool.not_eq_true] at he2
        simp only [← hL2, he2, Bool.false_eq_true, if_false]
        rw [sweep_fold_safe_id env2 L2 hsafe]
        exact ⟨rfl, rfl⟩
  refine ⟨hmain.1, hmain.2, ?_⟩
  intro n
  by_cases he : st.active_sessions.isEmpty = true
  · unfold recovery_orphaned_sessions
    simp [he]
  · unfold recovery_orphaned_sessions
    simp only [Bool.not_eq_true] at he
    simp only [he, Bool.false_eq_true, if_false]
    exact sweep_fold_counts_now env1 n st.active_sessions
      { store := st, recovered := 0, moved := 0, startCalls := [] }
      { store := st, recovered := 0, moved := 0, startCalls := [] } rfl rfl

/-- C7 witness: one orphaned but recoverable active session; the first
sweep restarts it, and since the successful start is reported running
afterwards, a second sweep counts nothing. -/
theorem C7_sweep_idempotent_witness :
    (recovery_orphaned_sessions
      { running := fun _ => true, fileExists := fun _ => true,
        createServiceOk := fun _ => true, saveOk := true, now := "T2" }
      (recovery_orphaned_sessions
        { running := fun _ => false, fileExists := fun _ => true,
          createServiceOk := fun _ => true, saveOk := true, now := "T1" }
        { active_sessions := [("s7",
            { video_file := some "a.mp4", platform := some "YouTube",
              stream_key := some "k", status := some "active" })],
          inactive_sessions := [],
          scheduled_sessions := [] }).store).recovered = 0 := by
  have h := C7_sweep_idempotent
    { running := fun _ => false, fileExists := fun _ => true,
      createServiceOk := fun _ => true, saveOk := true, now := "T1" }
    { running := fun _ => true, fileExists := fun _ => true,
      createServiceOk := fun _ => true, saveOk := true, now := "T2" }
    { active_sessions := [("s7",
        { video_file := some "a.mp4", platform := some "YouTube",
          stream_key := some "k", status := some "active" })],
      inactive_sessions := [],
      scheduled_sessions := [] }
    rfl (fun k hk => rfl) (fun k hk => rfl) (fun v => rfl)
  exact h.1

end StreamHib
